import Mathlib

/-!
Formal model of the command-relay actor in
`substrate/client/network/sync/src/service/network.rs`.

The source defines:
  * `ToServiceCommand` — the closed command vocabulary (`DisconnectPeer`,
    `ReportPeer`, `StartRequest`);
  * `NetworkServiceHandle` — a cloneable producer handle whose methods
    `disconnect_peer`, `report_peer` and `start_request` enqueue commands on an
    unbounded mpsc channel via `unbounded_send`, discarding the send result;
  * `NetworkServiceProvider::run` — the consumer loop that drops the provider's
    own handle clone, then dequeues commands in order and invokes the matching
    operation of the injected `Network` capability (`disconnect_peer`,
    `report_peer`, `start_request` with the fallback argument set to `None`),
    returning when the channel is exhausted (all senders dropped, queue empty).

The embedding has two layers:
  * a functional model of the channel (`Channel`, `unbounded_send`) and of the
    handle methods, faithful to the Rust bodies, used for the producer-side
    claims; discarded `oneshot::Sender`s are recorded so that the drop
    semantics of a rejected `StartRequest` is observable;
  * a small-step operational model (`ActorSystem`, `Step`) of the whole
    enqueue/clone/drop/run lifecycle, used for ordering, termination and
    serialization claims.  `runCommand` is the body of the `match` inside
    `NetworkServiceProvider::run`, mapping a dequeued command to the capability
    call it performs.
-/

/-- Peer identifier (`sc_network_types::PeerId`), abstracted to a numeric id. -/
structure PeerId where
  id : Nat
  deriving DecidableEq

/-- Protocol name (`sc_network::types::ProtocolName`). -/
structure ProtocolName where
  name : String
  deriving DecidableEq

/-- `sc_network::ReputationChange`: signed reputation delta plus a reason. -/
structure ReputationChange where
  value : Int
  reason : String
  deriving DecidableEq

/-- `sc_network::request_responses::IfDisconnected`: connect policy for a
request towards a possibly disconnected peer. -/
inductive IfDisconnected
  | TryConnect
  | ImmediateError
  deriving DecidableEq

/-- `sc_network::request_responses::RequestFailure`: network-level failures,
produced by the capability and merely transported by this core. -/
inductive RequestFailure
  | NotConnected
  | UnknownProtocol
  | Refused
  | Obsolete
  deriving DecidableEq

/-- Identity of a `futures::channel::oneshot::Sender` reply slot.  The relay
only moves senders around, so identity is all the model needs. -/
structure SlotId where
  id : Nat
  deriving DecidableEq

/-- Payload type of a `StartRequest` reply slot:
`Result<(Vec<u8>, ProtocolName), RequestFailure>`. -/
abbrev RequestResult := Except RequestFailure (List Nat × ProtocolName)

/-- `futures::channel::oneshot::Canceled`: the local failure a receiver
observes when the sender is dropped without sending. -/
inductive Canceled
  | canceled
  deriving DecidableEq

/-- State of a one-shot reply slot: not yet resolved, fulfilled with a value,
or sender dropped without a value. -/
inductive SlotState (α : Type)
  | pending
  | sent (v : α)
  | dropped
  deriving DecidableEq

/-- What the receiver of a one-shot slot observes: `none` while the slot is
still pending, `some (Except.ok v)` once `v` was sent, and
`some (Except.error Canceled.canceled)` once the sender was dropped. -/
def recvOutcome {α : Type} : SlotState α → Option (Except Canceled α)
  | .pending => none
  | .sent v => some (.ok v)
  | .dropped => some (.error .canceled)

/-- `ToServiceCommand`: commands that `ChainSync` wishes to send to
`NetworkService`.  Field order follows the Rust declaration. -/
inductive ToServiceCommand
  | DisconnectPeer (peer : PeerId) (protocol : ProtocolName)
  | ReportPeer (peer : PeerId) (change : ReputationChange)
  | StartRequest (peer : PeerId) (protocol : ProtocolName) (request : List Nat)
      (tx : SlotId) (connect : IfDisconnected)
  deriving DecidableEq

/-- One invocation of the injected `Network` capability, as performed by
`NetworkServiceProvider::run`.  `start_request` carries the optional fallback
request of `NetworkRequest::start_request`. -/
inductive CapCall
  | disconnect_peer (peer : PeerId) (protocol : ProtocolName)
  | report_peer (peer : PeerId) (change : ReputationChange)
  | start_request (peer : PeerId) (protocol : ProtocolName) (request : List Nat)
      (fallback : Option (List Nat × ProtocolName)) (tx : SlotId)
      (connect : IfDisconnected)
  deriving DecidableEq

/-- The body of the `match` inside `NetworkServiceProvider::run`: the
capability call made for one dequeued command.  `StartRequest` is forwarded
with the fallback-request argument set to `None`. -/
def runCommand : ToServiceCommand → CapCall
  | .DisconnectPeer peer protocol_name => .disconnect_peer peer protocol_name
  | .ReportPeer peer reputation_change => .report_peer peer reputation_change
  | .StartRequest peer protocol request tx connect =>
      .start_request peer protocol request none tx connect

/-- The reply slots carried by a command (dropped if the command itself is
discarded). -/
def slotsOf : ToServiceCommand → List SlotId
  | .StartRequest _ _ _ tx _ => [tx]
  | _ => []

/-- Producer-side view of the `tracing_unbounded` mpsc channel: the pending
queue, whether the receive side is still alive, and the reply slots whose
senders were dropped because their command was discarded. -/
structure Channel where
  queue : List ToServiceCommand
  receiverOpen : Bool
  droppedSlots : List SlotId
  deriving DecidableEq

/-- `TracingUnboundedSender::unbounded_send`: appends to the queue when the
receiver is alive and reports success; otherwise the command is dropped (its
reply slots with it) and failure is reported.  It never blocks and never
panics: it is a total function on every channel state. -/
def unbounded_send (ch : Channel) (cmd : ToServiceCommand) : Channel × Bool :=
  if ch.receiverOpen then
    ({ ch with queue := ch.queue ++ [cmd] }, true)
  else
    ({ ch with droppedSlots := ch.droppedSlots ++ slotsOf cmd }, false)

/-- `NetworkServiceHandle::report_peer`: enqueue a `ReportPeer` command,
discarding the send result (`let _ = ...`). -/
def NetworkServiceHandle.report_peer (ch : Channel) (who : PeerId)
    (cost_benefit : ReputationChange) : Channel :=
  (unbounded_send ch (.ReportPeer who cost_benefit)).1

/-- `NetworkServiceHandle::disconnect_peer`: enqueue a `DisconnectPeer`
command, discarding the send result. -/
def NetworkServiceHandle.disconnect_peer (ch : Channel) (who : PeerId)
    (protocol : ProtocolName) : Channel :=
  (unbounded_send ch (.DisconnectPeer who protocol)).1

/-- `NetworkServiceHandle::start_request`: enqueue a `StartRequest` command
carrying the caller-supplied reply sender `tx`, discarding the send result.
Note the Rust signature: the sender is an argument, the method returns `()`. -/
def NetworkServiceHandle.start_request (ch : Channel) (who : PeerId)
    (protocol : ProtocolName) (request : List Nat) (tx : SlotId)
    (connect : IfDisconnected) : Channel :=
  (unbounded_send ch (.StartRequest who protocol request tx connect)).1

/-- Modelled from the spec (§4.1): the claimed shape of `start_request`, which
takes only peer, protocol, payload and connect policy, internally constructs a
fresh one-shot reply slot (`freshSlot`, drawn from the channel owner, not from
the caller), enqueues a `StartRequest` carrying it, and returns the receiving
end to the caller.  Kept only to contrast with the source function above. -/
def start_request_spec (ch : Channel) (freshSlot : SlotId) (who : PeerId)
    (protocol : ProtocolName) (request : List Nat)
    (connect : IfDisconnected) : Channel × SlotId :=
  ((unbounded_send ch (.StartRequest who protocol request freshSlot connect)).1,
    freshSlot)

/-- Global state of the actor system: the pending queue, the complete history
of accepted enqueues (in arrival order), the number of live handle clones,
whether `run` has started (and hence dropped the provider's own handle), and
whether the run loop has returned; `trace` lists the capability calls made so
far, in order. -/
structure ActorSystem where
  queue : List ToServiceCommand
  history : List ToServiceCommand
  senders : Nat
  started : Bool
  finished : Bool
  trace : List CapCall
  deriving DecidableEq

/-- `NetworkServiceProvider::new()`: empty channel, one live sender (the
handle retained inside the provider itself), run not yet started. -/
def NetworkServiceProvider.initState : ActorSystem :=
  { queue := [], history := [], senders := 1, started := false,
    finished := false, trace := [] }

/-- One step of the actor system.  Producer steps (enqueue, clone, drop) model
`NetworkServiceHandle`; `startRun` models the prelude of
`NetworkServiceProvider::run` (`let Self { mut rx, handle } = self;
drop(handle);`); `process` models one iteration of the `while let` loop;
`finish` models `rx.next()` returning `None`, which happens exactly when every
sender is dropped and the queue is empty. -/
inductive Step : ActorSystem → ActorSystem → Prop
  | enqueue (s : ActorSystem) (c : ToServiceCommand)
      (hs : 0 < s.senders) (hf : s.finished = false) :
      Step s { s with queue := s.queue ++ [c], history := s.history ++ [c] }
  | enqueueClosed (s : ActorSystem) (c : ToServiceCommand)
      (hs : 0 < s.senders) (hf : s.finished = true) :
      Step s s
  | cloneHandle (s : ActorSystem) (hs : 0 < s.senders) :
      Step s { s with senders := s.senders + 1 }
  | dropHandle (s : ActorSystem) (hs : 0 < s.senders) :
      Step s { s with senders := s.senders - 1 }
  | startRun (s : ActorSystem) (hst : s.started = false)
      (hf : s.finished = false) (hs : 0 < s.senders) :
      Step s { s with started := true, senders := s.senders - 1 }
  | process (s : ActorSystem) (c : ToServiceCommand)
      (rest : List ToServiceCommand) (hst : s.started = true)
      (hf : s.finished = false) (hq : s.queue = c :: rest) :
      Step s { s with queue := rest, trace := s.trace ++ [runCommand c] }
  | finish (s : ActorSystem) (hst : s.started = true) (hf : s.finished = false)
      (hq : s.queue = []) (hs : s.senders = 0) :
      Step s { s with finished := true }

/-- Reflexive-transitive closure of `Step`. -/
inductive Reaches : ActorSystem → ActorSystem → Prop
  | refl (s : ActorSystem) : Reaches s s
  | tail {s t u : ActorSystem} : Reaches s t → Step t u → Reaches s u

/-- Order invariant: the trace is exactly the image under `runCommand` of the
already-processed prefix of the enqueue history, and the pending queue is the
remaining suffix. -/
def OrderInv (s : ActorSystem) : Prop :=
  ∃ done, s.history = done ++ s.queue ∧ s.trace = done.map runCommand

/-- Once the run loop has returned the queue is empty. -/
def FinInv (s : ActorSystem) : Prop :=
  s.finished = true → s.queue = []

/-- Concrete peer used in witnesses. -/
def peer0 : PeerId := ⟨0⟩

/-- Concrete protocol name used in witnesses. -/
def proto0 : ProtocolName := ⟨"sync/1"⟩

/-- Concrete reputation change used in witnesses. -/
def rep0 : ReputationChange := ⟨-100, "test"⟩

/-- Concrete reply slot used in witnesses. -/
def slot0 : SlotId := ⟨0⟩

/-- A second, distinct reply slot. -/
def slot1 : SlotId := ⟨1⟩

/-- A channel whose receive side is alive. -/
def chOpen : Channel := ⟨[], true, []⟩

/-- A channel whose receive side is closed (actor terminated). -/
def chClosed : Channel := ⟨[], false, []⟩

/-- Disconnect command used in the witness execution. -/
def cmdD : ToServiceCommand := .DisconnectPeer peer0 proto0

/-- Report command used in the witness execution. -/
def cmdR : ToServiceCommand := .ReportPeer peer0 rep0

/-- Start-request command used in the witness execution. -/
def cmdS : ToServiceCommand := .StartRequest peer0 proto0 [1, 2, 3] slot0 .TryConnect

/-- Final state of the canonical witness execution: one handle was cloned, the
run started, a disconnect, a report and a start-request were enqueued and
processed in order, the external handle was dropped and the loop finished. -/
def finalState : ActorSystem :=
  { queue := [], history := [cmdD, cmdR, cmdS], senders := 0, started := true,
    finished := true,
    trace := [.disconnect_peer peer0 proto0, .report_peer peer0 rep0,
      .start_request peer0 proto0 [1, 2, 3] none slot0 .TryConnect] }

/-- An exhausted (started, empty queue, no senders) not-yet-finished state. -/
def sExh : ActorSystem :=
  { queue := [], history := [], senders := 0, started := true,
    finished := false, trace := [] }

/-- A finished state that still has a live external handle clone. -/
def sDone : ActorSystem :=
  { queue := [], history := [], senders := 1, started := true,
    finished := true, trace := [] }

/-- `OrderInv` holds initially. -/
theorem orderInv_init : OrderInv NetworkServiceProvider.initState :=
  ⟨[], rfl, rfl⟩

/-- `OrderInv` is preserved by every step. -/
theorem orderInv_step {s s' : ActorSystem} (h : Step s s') (hi : OrderInv s) :
    OrderInv s' := by
  obtain ⟨d, hd, ht⟩ := hi
  cases h with
  | enqueue c hs hf => exact ⟨d, by simp [hd], ht⟩
  | enqueueClosed c hs hf => exact ⟨d, hd, ht⟩
  | cloneHandle hs => exact ⟨d, hd, ht⟩
  | dropHandle hs => exact ⟨d, hd, ht⟩
  | startRun hst hf hs => exact ⟨d, hd, ht⟩
  | process c rest hst hf hq =>
      refine ⟨d ++ [c], ?_, ?_⟩
      · simp [hd, hq]
      · simp [ht]
  | finish hst hf hq hs => exact ⟨d, hd, ht⟩

/-- `OrderInv` holds in every reachable state. -/
theorem orderInv_reaches {s : ActorSystem}
    (h : Reaches NetworkServiceProvider.initState s) : OrderInv s := by
  induction h with
  | refl => exact orderInv_init
  | tail hr hs ih => exact orderInv_step hs ih

/-- `FinInv` holds initially. -/
theorem finInv_init : FinInv NetworkServiceProvider.initState := by
  intro h
  exact absurd h (by simp [NetworkServiceProvider.initState])

/-- `FinInv` is preserved by every step. -/
theorem finInv_step {s s' : ActorSystem} (h : Step s s') (hi : FinInv s) :
    FinInv s' := by
  cases h with
  | enqueue c hs hf =>
      intro h2
      simp [hf] at h2
  | enqueueClosed c hs hf => exact hi
  | cloneHandle hs =>
      intro h2
      exact hi h2
  | dropHandle hs =>
      intro h2
      exact hi h2
  | startRun hst hf hs =>
      intro h2
      simp [hf] at h2
  | process c rest hst hf hq =>
      intro h2
      simp [hf] at h2
  | finish hst hf hq hs =>
      intro h2
      exact hq

/-- `FinInv` holds in every reachable state. -/
theorem finInv_reaches {s : ActorSystem}
    (h : Reaches NetworkServiceProvider.initState s) : FinInv s := by
  induction h with
  | refl => exact finInv_init
  | tail hr hs ih => exact finInv_step hs ih

/-- In a mapped trace, `disconnect_peer` calls are counted exactly by their
`DisconnectPeer` commands. -/
theorem countP_disconnect_map (l : List ToServiceCommand) (p : PeerId)
    (pr : ProtocolName) :
    (l.map runCommand).countP (fun call => decide (call = CapCall.disconnect_peer p pr)) =
      l.countP (fun c => decide (c = ToServiceCommand.DisconnectPeer p pr)) := by
  induction l with
  | nil => rfl
  | cons c t ih =>
      simp only [List.map_cons, List.countP_cons, ih]
      cases c <;> simp [runCommand]

/-- In a mapped trace, `report_peer` calls are counted exactly by their
`ReportPeer` commands. -/
theorem countP_report_map (l : List ToServiceCommand) (p : PeerId)
    (rc : ReputationChange) :
    (l.map runCommand).countP (fun call => decide (call = CapCall.report_peer p rc)) =
      l.countP (fun c => decide (c = ToServiceCommand.ReportPeer p rc)) := by
  induction l with
  | nil => rfl
  | cons c t ih =>
      simp only [List.map_cons, List.countP_cons, ih]
      cases c <;> simp [runCommand]

/-- The canonical witness execution: clone a handle, start the run, enqueue a
disconnect, a report and a start-request, process all three, drop the external
handle, and finish. -/
theorem reaches_finalState :
    Reaches NetworkServiceProvider.initState finalState := by
  have h1 : Step NetworkServiceProvider.initState
      { queue := [], history := [], senders := 2, started := false,
        finished := false, trace := [] } :=
    Step.cloneHandle _ (by decide)
  have h2 : Step
      { queue := [], history := [], senders := 2, started := false,
        finished := false, trace := [] }
      { queue := [], history := [], senders := 1, started := true,
        finished := false, trace := [] } :=
    Step.startRun _ rfl rfl (by decide)
  have h3 : Step
      { queue := [], history := [], senders := 1, started := true,
        finished := false, trace := [] }
      { queue := [cmdD], history := [cmdD], senders := 1, started := true,
        finished := false, trace := [] } :=
    Step.enqueue _ cmdD (by decide) rfl
  have h4 : Step
      { queue := [cmdD], history := [cmdD], senders := 1, started := true,
        finished := false, trace := [] }
      { queue := [cmdD, cmdR], history := [cmdD, cmdR], senders := 1,
        started := true, finished := false, trace := [] } :=
    Step.enqueue _ cmdR (by decide) rfl
  have h5 : Step
      { queue := [cmdD, cmdR], history := [cmdD, cmdR], senders := 1,
        started := true, finished := false, trace := [] }
      { queue := [cmdD, cmdR, cmdS], history := [cmdD, cmdR, cmdS],
        senders := 1, started := true, finished := false, trace := [] } :=
    Step.enqueue _ cmdS (by decide) rfl
  have h6 : Step
      { queue := [cmdD, cmdR, cmdS], history := [cmdD, cmdR, cmdS],
        senders := 1, started := true, finished := false, trace := [] }
      { queue := [cmdR, cmdS], history := [cmdD, cmdR, cmdS], senders := 1,
        started := true, finished := false,
        trace := [.disconnect_peer peer0 proto0] } :=
    Step.process _ cmdD [cmdR, cmdS] rfl rfl rfl
  have h7 : Step
      { queue := [cmdR, cmdS], history := [cmdD, cmdR, cmdS], senders := 1,
        started := true, finished := false,
        trace := [.disconnect_peer peer0 proto0] }
      { queue := [cmdS], history := [cmdD, cmdR, cmdS], senders := 1,
        started := true, finished := false,
        trace := [.disconnect_peer peer0 proto0, .report_peer peer0 rep0] } :=
    Step.process _ cmdR [cmdS] rfl rfl rfl
  have h8 : Step
      { queue := [cmdS], history := [cmdD, cmdR, cmdS], senders := 1,
        started := true, finished := false,
        trace := [.disconnect_peer peer0 proto0, .report_peer peer0 rep0] }
      { queue := [], history := [cmdD, cmdR, cmdS], senders := 1,
        started := true, finished := false,
        trace := [.disconnect_peer peer0 proto0, .report_peer peer0 rep0,
          .start_request peer0 proto0 [1, 2, 3] none slot0 .TryConnect] } :=
    Step.process _ cmdS [] rfl rfl rfl
  have h9 : Step
      { queue := [], history := [cmdD, cmdR, cmdS], senders := 1,
        started := true, finished := false,
        trace := [.disconnect_peer peer0 proto0, .report_peer peer0 rep0,
          .start_request peer0 proto0 [1, 2, 3] none slot0 .TryConnect] }
      { queue := [], history := [cmdD, cmdR, cmdS], senders := 0,
        started := true, finished := false,
        trace := [.disconnect_peer peer0 proto0, .report_peer peer0 rep0,
          .start_request peer0 proto0 [1, 2, 3] none slot0 .TryConnect] } :=
    Step.dropHandle _ (by decide)
  have h10 : Step
      { queue := [], history := [cmdD, cmdR, cmdS], senders := 0,
        started := true, finished := false,
        trace := [.disconnect_peer peer0 proto0, .report_peer peer0 rep0,
          .start_request peer0 proto0 [1, 2, 3] none slot0 .TryConnect] }
      finalState :=
    Step.finish _ rfl rfl rfl rfl
  exact Reaches.tail (Reaches.tail (Reaches.tail (Reaches.tail (Reaches.tail
    (Reaches.tail (Reaches.tail (Reaches.tail (Reaches.tail (Reaches.tail
      (Reaches.refl _) h1) h2) h3) h4) h5) h6) h7) h8) h9) h10

/-- C1: for every sequence of commands enqueued through any combination of
handle clones, the run loop invokes the capability operations in exactly the
enqueue order: in every reachable state the trace of capability calls is the
image under `runCommand` of the already-processed prefix of the enqueue
history, and the pending queue is the remaining suffix — no reordering and no
priority across producers. -/
theorem run_invokes_in_enqueue_order (s : ActorSystem)
    (h : Reaches NetworkServiceProvider.initState s) :
    ∃ done, s.history = done ++ s.queue ∧ s.trace = done.map runCommand :=
  orderInv_reaches h

/-- Witness for C1 at the canonical concrete execution. -/
theorem run_invokes_in_enqueue_order_witness :
    ∃ done, finalState.history = done ++ finalState.queue ∧
      finalState.trace = done.map runCommand :=
  run_invokes_in_enqueue_order finalState reaches_finalState

/-- C2: a dequeued `StartRequest` results in exactly one capability
`start_request` call, with peer, protocol, payload, connect policy and the
reply slot passed through unmodified (the loop step appends exactly that one
call); when the capability fulfills the slot with a success value the caller
observes that exact value, and when the capability drops the slot unfulfilled
the caller observes the local closure failure `Canceled`. -/
theorem startRequest_dispatch_and_reply (p : PeerId) (pr : ProtocolName)
    (req : List Nat) (tx : SlotId) (conn : IfDisconnected)
    (q hist : List ToServiceCommand) (n : Nat) (tr : List CapCall)
    (v : List Nat × ProtocolName) :
    runCommand (.StartRequest p pr req tx conn) =
      .start_request p pr req none tx conn ∧
    Step
      { queue := .StartRequest p pr req tx conn :: q, history := hist,
        senders := n, started := true, finished := false, trace := tr }
      { queue := q, history := hist, senders := n, started := true,
        finished := false,
        trace := tr ++ [.start_request p pr req none tx conn] } ∧
    recvOutcome (SlotState.sent (Except.ok v : RequestResult)) =
      some (Except.ok (Except.ok v)) ∧
    recvOutcome (SlotState.dropped : SlotState RequestResult) =
      some (Except.error Canceled.canceled) := by
  refine ⟨rfl, ?_, rfl, rfl⟩
  exact Step.process _ (.StartRequest p pr req tx conn) q rfl rfl rfl

/-- C3 counterexample: the claim says `start_request` is given only peer,
protocol, payload and connect policy and *internally constructs* the one-shot
reply slot.  In the source the reply sender is a fifth, caller-supplied
argument: two calls identical in the four claimed inputs but with different
caller-supplied senders enqueue different commands, so the slot is not
internally constructed (and the method returns only `()`, not a receiver). -/
theorem startRequest_slot_is_caller_supplied :
    NetworkServiceHandle.start_request chOpen peer0 proto0 [1, 2, 3] slot0
        .TryConnect ≠
      NetworkServiceHandle.start_request chOpen peer0 proto0 [1, 2, 3] slot1
        .TryConnect := by
  decide

/-- C3 (amended): `start_request`, given peer, protocol, payload, a
caller-constructed one-shot reply sender and the connect policy, enqueues
exactly one `StartRequest` command carrying those exact arguments (the reply
sender unmodified) and returns nothing; the caller retains the receiving end
of the slot, which resolves with the eventual result. -/
theorem startRequest_enqueues_caller_slot (ch : Channel) (who : PeerId)
    (pr : ProtocolName) (req : List Nat) (tx : SlotId) (conn : IfDisconnected)
    (h : ch.receiverOpen = true) :
    NetworkServiceHandle.start_request ch who pr req tx conn =
      { ch with queue := ch.queue ++ [.StartRequest who pr req tx conn] } := by
  simp [NetworkServiceHandle.start_request, unbounded_send, h]

/-- Witness for the amended C3 on an open channel. -/
theorem startRequest_enqueues_caller_slot_witness :
    chOpen.receiverOpen = true ∧
    NetworkServiceHandle.start_request chOpen peer0 proto0 [1, 2, 3] slot0
        .TryConnect =
      { chOpen with
        queue := chOpen.queue ++
          [.StartRequest peer0 proto0 [1, 2, 3] slot0 .TryConnect] } :=
  ⟨rfl, startRequest_enqueues_caller_slot chOpen peer0 proto0 [1, 2, 3] slot0
    .TryConnect rfl⟩

/-- C4: the run loop returns exactly when the queue signals exhaustion.
(i) when the run has started, the loop has not returned, the queue is empty
and every sender is dropped, the finishing step is enabled; (ii) any step that
makes the loop return starts from an exhausted state (empty queue, zero
senders, run started) and makes no capability call; (iii) after the loop has
returned, no step makes any further capability call (and the loop stays
returned). -/
theorem run_terminates_iff_exhausted :
    (∀ s : ActorSystem, s.started = true → s.finished = false →
      s.queue = [] → s.senders = 0 → Step s { s with finished := true }) ∧
    (∀ s s' : ActorSystem, Step s s' → s.finished = false →
      s'.finished = true →
      s.queue = [] ∧ s.senders = 0 ∧ s.started = true ∧ s'.trace = s.trace) ∧
    (∀ s s' : ActorSystem, Step s s' → s.finished = true →
      s'.finished = true ∧ s'.trace = s.trace) := by
  refine ⟨?_, ?_, ?_⟩
  · intro s h1 h2 h3 h4
    exact Step.finish s h1 h2 h3 h4
  · intro s s' h hf hf'
    cases h with
    | enqueue c hs hfal => exact absurd hf' (by simp [hfal])
    | enqueueClosed c hs hfal => exact absurd hfal (by simp [hf])
    | cloneHandle hs => exact absurd hf' (by simp [hf])
    | dropHandle hs => exact absurd hf' (by simp [hf])
    | startRun hst hfal hs => exact absurd hf' (by simp [hfal])
    | process c rest hst hfal hq => exact absurd hf' (by simp [hfal])
    | finish hst hfal hq hs => exact ⟨hq, hs, hst, rfl⟩
  · intro s s' h hfin
    cases h with
    | enqueue c hs hfal => exact absurd hfin (by simp [hfal])
    | enqueueClosed c hs hfal => exact ⟨hfal, rfl⟩
    | cloneHandle hs => exact ⟨hfin, rfl⟩
    | dropHandle hs => exact ⟨hfin, rfl⟩
    | startRun hst hfal hs => exact absurd hfin (by simp [hfal])
    | process c rest hst hfal hq => exact absurd hfin (by simp [hfal])
    | finish hst hfal hq hs => exact absurd hfin (by simp [hfal])

/-- Witness for C4: the finish step at a concrete exhausted state, the
exhaustion facts extracted from that very step, and a post-return step (a
discarded enqueue) that leaves the trace unchanged. -/
theorem run_terminates_iff_exhausted_witness :
    Step sExh { sExh with finished := true } ∧
    (sExh.queue = [] ∧ sExh.senders = 0 ∧ sExh.started = true ∧
      ({ sExh with finished := true } : ActorSystem).trace = sExh.trace) ∧
    (sDone.finished = true ∧ sDone.trace = sDone.trace) := by
  have h1 : Step sExh { sExh with finished := true } :=
    run_terminates_iff_exhausted.1 sExh rfl rfl rfl rfl
  have h2 := run_terminates_iff_exhausted.2.1 sExh _ h1 rfl rfl
  have h3 := run_terminates_iff_exhausted.2.2 sDone sDone
    (Step.enqueueClosed sDone cmdD (by decide) rfl) rfl
  exact ⟨h1, h2, h3⟩

/-- C5: enqueuing on a channel whose consume side is closed never panics and
never blocks (the handle operations are total functions): `DisconnectPeer` and
`ReportPeer` commands are silently discarded leaving the channel unchanged,
with no error surfaced; a `StartRequest` enqueues nothing and its reply sender
is dropped, so the caller observes the distinguished closure failure
`Canceled`, which is distinct from every network-level outcome carried in the
`Except.ok` branch. -/
theorem enqueue_after_close_semantics (ch : Channel)
    (h : ch.receiverOpen = false) (who : PeerId) (pr : ProtocolName)
    (req : List Nat) (tx : SlotId) (conn : IfDisconnected)
    (rc : ReputationChange) :
    NetworkServiceHandle.disconnect_peer ch who pr = ch ∧
    NetworkServiceHandle.report_peer ch who rc = ch ∧
    (NetworkServiceHandle.start_request ch who pr req tx conn).queue =
      ch.queue ∧
    tx ∈ (NetworkServiceHandle.start_request ch who pr req tx conn).droppedSlots ∧
    recvOutcome (SlotState.dropped : SlotState RequestResult) =
      some (Except.error Canceled.canceled) ∧
    (∀ res : RequestResult,
      (Except.error Canceled.canceled : Except Canceled RequestResult) ≠
        Except.ok res) := by
  obtain ⟨q, ro, ds⟩ := ch
  simp only [Channel.receiverOpen] at h
  subst h
  refine ⟨?_, ?_, ?_, ?_, rfl, ?_⟩
  · simp [NetworkServiceHandle.disconnect_peer, unbounded_send, slotsOf]
  · simp [NetworkServiceHandle.report_peer, unbounded_send, slotsOf]
  · simp [NetworkServiceHandle.start_request, unbounded_send]
  · simp [NetworkServiceHandle.start_request, unbounded_send, slotsOf]
  · intro res hcon
    cases hcon

/-- Witness for C5 on a concrete closed channel. -/
theorem enqueue_after_close_semantics_witness :
    chClosed.receiverOpen = false ∧
    (NetworkServiceHandle.disconnect_peer chClosed peer0 proto0 = chClosed ∧
    NetworkServiceHandle.report_peer chClosed peer0 rep0 = chClosed ∧
    (NetworkServiceHandle.start_request chClosed peer0 proto0 [1, 2, 3] slot0
        .TryConnect).queue = chClosed.queue ∧
    slot0 ∈ (NetworkServiceHandle.start_request chClosed peer0 proto0 [1, 2, 3]
        slot0 .TryConnect).droppedSlots ∧
    recvOutcome (SlotState.dropped : SlotState RequestResult) =
      some (Except.error Canceled.canceled) ∧
    (∀ res : RequestResult,
      (Except.error Canceled.canceled : Except Canceled RequestResult) ≠
        Except.ok res)) :=
  ⟨rfl, enqueue_after_close_semantics chClosed rfl peer0 proto0 [1, 2, 3]
    slot0 .TryConnect rep0⟩

/-- C6: in every completed run, the capability trace is exactly the
`runCommand` image of the enqueue history, so every enqueued `DisconnectPeer`
yields exactly one `disconnect_peer` call and every `ReportPeer` exactly one
`report_peer` call (counts match for every concrete argument pair), each with
the exact arguments supplied; neither command carries a reply slot, so neither
produces any caller-side result. -/
theorem fire_and_forget_exact_calls (s : ActorSystem)
    (h : Reaches NetworkServiceProvider.initState s)
    (hfin : s.finished = true) (p : PeerId) (pr : ProtocolName)
    (rc : ReputationChange) :
    s.trace = s.history.map runCommand ∧
    runCommand (.DisconnectPeer p pr) = .disconnect_peer p pr ∧
    runCommand (.ReportPeer p rc) = .report_peer p rc ∧
    s.trace.countP (fun call => decide (call = CapCall.disconnect_peer p pr)) =
      s.history.countP
        (fun c => decide (c = ToServiceCommand.DisconnectPeer p pr)) ∧
    s.trace.countP (fun call => decide (call = CapCall.report_peer p rc)) =
      s.history.countP (fun c => decide (c = ToServiceCommand.ReportPeer p rc)) ∧
    slotsOf (.DisconnectPeer p pr) = [] ∧ slotsOf (.ReportPeer p rc) = [] := by
  obtain ⟨d, hd, ht⟩ := orderInv_reaches h
  have hq : s.queue = [] := finInv_reaches h hfin
  have htr : s.trace = s.history.map runCommand := by
    rw [hd, hq, List.append_nil, ht]
  refine ⟨htr, rfl, rfl, ?_, ?_, rfl, rfl⟩
  · rw [htr]
    exact countP_disconnect_map _ _ _
  · rw [htr]
    exact countP_report_map _ _ _

/-- Witness for C6 at the canonical completed execution. -/
theorem fire_and_forget_exact_calls_witness :
    finalState.trace = finalState.history.map runCommand ∧
    runCommand (.DisconnectPeer peer0 proto0) = .disconnect_peer peer0 proto0 ∧
    runCommand (.ReportPeer peer0 rep0) = .report_peer peer0 rep0 ∧
    finalState.trace.countP
        (fun call => decide (call = CapCall.disconnect_peer peer0 proto0)) =
      finalState.history.countP
        (fun c => decide (c = ToServiceCommand.DisconnectPeer peer0 proto0)) ∧
    finalState.trace.countP
        (fun call => decide (call = CapCall.report_peer peer0 rep0)) =
      finalState.history.countP
        (fun c => decide (c = ToServiceCommand.ReportPeer peer0 rep0)) ∧
    slotsOf (.DisconnectPeer peer0 proto0) = [] ∧
    slotsOf (.ReportPeer peer0 rep0) = [] :=
  fire_and_forget_exact_calls finalState reaches_finalState rfl peer0 proto0
    rep0

/-- C7: `run` drops the provider's own retained handle before entering the
dequeue loop: its first action decrements the live-sender count; consequently,
when the provider's handle was the last one and the queue is empty, the queue
signals exhaustion and the finishing step is enabled with no external help. -/
theorem run_drops_own_handle_first (s : ActorSystem) (hst : s.started = false)
    (hf : s.finished = false) (hs : 0 < s.senders) :
    Step s { s with started := true, senders := s.senders - 1 } ∧
    (s.senders = 1 → s.queue = [] →
      Step { s with started := true, senders := 0 }
        { s with started := true, senders := 0, finished := true }) := by
  refine ⟨Step.startRun s hst hf hs, ?_⟩
  intro h1 h2
  exact Step.finish _ rfl hf h2 rfl

/-- Witness for C7 at the freshly constructed provider. -/
theorem run_drops_own_handle_first_witness :
    Step NetworkServiceProvider.initState
      { NetworkServiceProvider.initState with
        started := true,
        senders := NetworkServiceProvider.initState.senders - 1 } ∧
    (NetworkServiceProvider.initState.senders = 1 →
      NetworkServiceProvider.initState.queue = [] →
      Step
        { NetworkServiceProvider.initState with
          started := true,
          senders := 0 }
        { NetworkServiceProvider.initState with
          started := true,
          senders := 0,
          finished := true }) :=
  run_drops_own_handle_first NetworkServiceProvider.initState rfl rfl
    (by decide)

/-- C8: the loop step is total for every dequeued command — from any running
state with a command at the head of the queue the processing step (one
capability call, never a panic or abort) is enabled — and the actor has no
error terminal state: from a state whose queue is non-empty no step makes the
loop return, so queue exhaustion is the only terminal condition. -/
theorem run_loop_total_no_error_exit (s : ActorSystem) (c : ToServiceCommand)
    (rest : List ToServiceCommand) (hst : s.started = true)
    (hf : s.finished = false) (hq : s.queue = c :: rest) :
    Step s { s with queue := rest, trace := s.trace ++ [runCommand c] } ∧
    (∀ s', Step s s' → s'.finished = false) := by
  refine ⟨Step.process s c rest hst hf hq, ?_⟩
  intro s' h
  cases h with
  | enqueue c2 hs hfal => exact hfal
  | enqueueClosed c2 hs hfal => exact absurd hfal (by simp [hf])
  | cloneHandle hs => exact hf
  | dropHandle hs => exact hf
  | startRun hst2 hfal hs => exact hfal
  | process c2 rest2 hst2 hfal hq2 => exact hfal
  | finish hst2 hfal hq2 hs => exact absurd hq2 (by simp [hq])

/-- Witness for C8 at a concrete running state with a pending command. -/
theorem run_loop_total_no_error_exit_witness :
    Step
      { queue := [cmdD], history := [cmdD], senders := 1, started := true,
        finished := false, trace := [] }
      { queue := [], history := [cmdD], senders := 1, started := true,
        finished := false, trace := [] ++ [runCommand cmdD] } ∧
    (∀ s', Step
      { queue := [cmdD], history := [cmdD], senders := 1, started := true,
        finished := false, trace := [] } s' → s'.finished = false) :=
  run_loop_total_no_error_exit
    { queue := [cmdD], history := [cmdD], senders := 1, started := true,
      finished := false, trace := [] } cmdD [] rfl rfl rfl

/-- C9: capability calls are fully serialized: every step of the system
extends the call trace by at most one call, so the calls made by the single
relay task form one total order and no two capability invocations overlap —
each call completes within its processing step, before the next dequeue. -/
theorem capability_calls_serialized (s s' : ActorSystem) (h : Step s s') :
    ∃ t, s'.trace = s.trace ++ t ∧ t.length ≤ 1 := by
  cases h with
  | enqueue c hs hf => exact ⟨[], by simp, by decide⟩
  | enqueueClosed c hs hf => exact ⟨[], by simp, by decide⟩
  | cloneHandle hs => exact ⟨[], by simp, by decide⟩
  | dropHandle hs => exact ⟨[], by simp, by decide⟩
  | startRun hst hf hs => exact ⟨[], by simp, by decide⟩
  | process c rest hst hf hq => exact ⟨[runCommand c], rfl, by simp⟩
  | finish hst hf hq hs => exact ⟨[], by simp, by decide⟩

/-- Witness for C9 at a concrete processing step. -/
theorem capability_calls_serialized_witness :
    ∃ t, ({ queue := [], history := [cmdD], senders := 1, started := true,
            finished := false,
            trace := [] ++ [runCommand cmdD] } : ActorSystem).trace =
      ({ queue := [cmdD], history := [cmdD], senders := 1, started := true,
         finished := false, trace := [] } : ActorSystem).trace ++ t ∧
      t.length ≤ 1 :=
  capability_calls_serialized _ _
    (Step.process
      { queue := [cmdD], history := [cmdD], senders := 1, started := true,
        finished := false, trace := [] } cmdD [] rfl rfl rfl)

/-- C10: the run loop always passes `None` as the fallback-request argument of
the capability's `start_request`: definitionally for every dequeued
`StartRequest`, and consequently every `start_request` call in the trace of
any reachable state carries fallback `none` — the fallback mechanism is never
exercised through this relay. -/
theorem fallback_always_none :
    (∀ (p : PeerId) (pr : ProtocolName) (req : List Nat) (tx : SlotId)
      (conn : IfDisconnected),
      runCommand (.StartRequest p pr req tx conn) =
        .start_request p pr req none tx conn) ∧
    (∀ s : ActorSystem, Reaches NetworkServiceProvider.initState s →
      ∀ (p : PeerId) (pr : ProtocolName) (req : List Nat)
        (fb : Option (List Nat × ProtocolName)) (tx : SlotId)
        (conn : IfDisconnected),
        CapCall.start_request p pr req fb tx conn ∈ s.trace → fb = none) := by
  refine ⟨fun _ _ _ _ _ => rfl, ?_⟩
  intro s h p pr req fb tx conn hmem
  obtain ⟨d, hd, ht⟩ := orderInv_reaches h
  rw [ht] at hmem
  obtain ⟨c, hc, heq⟩ := List.mem_map.mp hmem
  cases c with
  | DisconnectPeer a b => simp [runCommand] at heq
  | ReportPeer a b => simp [runCommand] at heq
  | StartRequest a b r t cn =>
      simp only [runCommand, CapCall.start_request.injEq] at heq
      exact heq.2.2.2.1.symm

/-- Witness for C10 at the canonical execution, whose trace contains a
`start_request` call. -/
theorem fallback_always_none_witness :
    CapCall.start_request peer0 proto0 [1, 2, 3] none slot0 .TryConnect ∈
      finalState.trace ∧
    (none : Option (List Nat × ProtocolName)) = none :=
  ⟨by decide,
    fallback_always_none.2 finalState reaches_finalState peer0 proto0 [1, 2, 3]
      none slot0 .TryConnect (by decide)⟩
